import Mathlib

/-!
# Verification of the tmp-dns transport layer (src/main.go)

Shallow embedding of the DNS transport program: the TCP transport
(`DNSOverTCP`), the DoH transport (`DNSOverHTTPS`) and the method dispatch
in `main`.  Bytes are `Nat` values below 256; the external codec
(`dns.Msg.Pack` / `Unpack`) is abstracted: a pack result is an
`Option (List Nat)` supplied as a parameter, and "handed to the decoder"
is modelled as returning the byte buffer in the `ok` branch.
-/

/-- Error kinds of the transport layer (spec section 7).  `ServerError`
carries the HTTP status line and the literal response body bytes, as the
error string built at src/main.go line 109 does. -/
inductive DNSError where
  | EncodeError
  | ConnectionError
  | WriteError
  | ReadError
  | DecodeError
  | NetworkError
  | ServerError (status : String) (body : List Nat)
  | TimeoutError
  | ConfigurationError
  deriving DecidableEq, Repr

/-- I/O events of one `DNSOverTCP` call, in program order.  `dial` is
emitted when the TCP connection has been opened (src/main.go line 23),
`write` when `conn.Write(buf.Bytes())` is issued with the given bytes
(line 43), `close` when the deferred `conn.Close()` runs (line 27). -/
inductive TCPEvent where
  | dial (addr : String)
  | write (bytes : List Nat)
  | close
  deriving DecidableEq, Repr

/-- One `conn.Read` on a stream whose pending input is a list of chunks:
the call returns the next chunk, capped at the buffer size (a stream read
delivers at least one available byte but need not fill the buffer); with
no pending chunk the peer has closed and the read fails (EOF). -/
def connRead (bufSize : Nat) : List (List Nat) → Option (List Nat × List (List Nat))
  | [] => none
  | c :: rest =>
      if c.length ≤ bufSize then some (c, rest)
      else some (c.take bufSize, c.drop bufSize :: rest)

/-- A single `conn.Read` into a freshly allocated zeroed buffer of
`bufSize` bytes, as `make([]byte, n)` followed by one `conn.Read` does
(src/main.go lines 49-50 and 57-58).  The returned count is ignored by
the program, so the whole buffer is used: bytes past the ones actually
read stay zero. -/
def readIntoBuffer (bufSize : Nat) (chunks : List (List Nat)) :
    Option (List Nat × List (List Nat)) :=
  match connRead bufSize chunks with
  | none => none
  | some (data, rest) => some (data ++ List.replicate (bufSize - data.length) 0, rest)

/-- The request frame built at src/main.go lines 36-40:
`length := uint16(len(msgBytes))` truncates the length modulo 2^16, then
`byte(length >> 8)` and `byte(length & 0xFF)` are written, followed by the
message bytes. -/
def frameTCPQuery (msgBytes : List Nat) : List Nat :=
  (msgBytes.length % 65536) / 256 :: (msgBytes.length % 65536) % 256 :: msgBytes

/-- `DNSOverTCP` (src/main.go lines 17-71) as a function of the
environment's behaviour: whether the dial succeeds, the codec's pack
result (`none` = `m.Pack()` fails), whether the write succeeds, and the
chunks the peer delivers.  Returns the I/O event trace and either the
byte buffer handed to `resp.Unpack` or the error taken.  The program
order is the source order: dial (line 23) happens before `m.Pack()`
(line 30); `respLength` is `int(lengthBytes[0])<<8 | int(lengthBytes[1])`
(line 54), which on bytes below 256 equals the sum below. -/
def dnsOverTCP (dnsServer : String) (dialOk : Bool) (packResult : Option (List Nat))
    (writeOk : Bool) (chunks : List (List Nat)) :
    List TCPEvent × Except DNSError (List Nat) :=
  if dialOk = false then
    ([], Except.error DNSError.ConnectionError)
  else
    match packResult with
    | none => ([TCPEvent.dial (dnsServer ++ ":53"), TCPEvent.close],
               Except.error DNSError.EncodeError)
    | some msgBytes =>
      ([TCPEvent.dial (dnsServer ++ ":53"), TCPEvent.write (frameTCPQuery msgBytes),
        TCPEvent.close],
       if writeOk = false then Except.error DNSError.WriteError
       else
         match readIntoBuffer 2 chunks with
         | none => Except.error DNSError.ReadError
         | some (lengthBytes, rest) =>
           match readIntoBuffer (lengthBytes[0]! * 256 + lengthBytes[1]!) rest with
           | none => Except.error DNSError.ReadError
           | some (respBytes, _) => Except.ok respBytes)

/-- Index into the base64url alphabet
`ABCDEFGHIJKLMNOPQRSTUVWXYZabcdefghijklmnopqrstuvwxyz0123456789-_`
used by Go's `base64.RawURLEncoding` (src/main.go line 85). -/
def b64Index (n : Nat) : Char :=
  if n < 26 then Char.ofNat (65 + n)
  else if n < 52 then Char.ofNat (97 + (n - 26))
  else if n < 62 then Char.ofNat (48 + (n - 52))
  else if n = 62 then '-'
  else '_'

/-- Value of a base64url alphabet character (inverse of `b64Index`),
as Go's `base64` decoder assigns it. -/
def b64Value (c : Char) : Nat :=
  if 65 ≤ c.toNat ∧ c.toNat ≤ 90 then c.toNat - 65
  else if 97 ≤ c.toNat ∧ c.toNat ≤ 122 then c.toNat - 97 + 26
  else if 48 ≤ c.toNat ∧ c.toNat ≤ 57 then c.toNat - 48 + 52
  else if c = '-' then 62
  else 63

/-- Go's `base64.RawURLEncoding.EncodeToString` (src/main.go line 85):
groups of three bytes become four alphabet characters; a final group of
two bytes becomes three characters and a final single byte two
characters; no padding characters are appended. -/
def rawURLEncode : List Nat → List Char
  | b0 :: b1 :: b2 :: rest =>
      b64Index (b0 / 4) :: b64Index ((b0 % 4) * 16 + b1 / 16) ::
      b64Index ((b1 % 16) * 4 + b2 / 64) :: b64Index (b2 % 64) :: rawURLEncode rest
  | [b0, b1] =>
      [b64Index (b0 / 4), b64Index ((b0 % 4) * 16 + b1 / 16), b64Index ((b1 % 16) * 4)]
  | [b0] =>
      [b64Index (b0 / 4), b64Index ((b0 % 4) * 16)]
  | [] => []

/-- Go's `base64.RawURLEncoding` decoding of a well-formed unpadded
string: four characters yield three bytes, a final three characters two
bytes, a final two characters one byte. -/
def rawURLDecode : List Char → List Nat
  | c0 :: c1 :: c2 :: c3 :: rest =>
      (b64Value c0 * 4 + b64Value c1 / 16) ::
      ((b64Value c1 % 16) * 16 + b64Value c2 / 4) ::
      ((b64Value c2 % 4) * 64 + b64Value c3) :: rawURLDecode rest
  | [c0, c1, c2] =>
      [b64Value c0 * 4 + b64Value c1 / 16, (b64Value c1 % 16) * 16 + b64Value c2 / 4]
  | [c0, c1] =>
      [b64Value c0 * 4 + b64Value c1 / 16]
  | [_] => []
  | [] => []

/-- The HTTP request built by `DNSOverHTTPS` (src/main.go lines 84-97):
method GET, URL `fmt.Sprintf("%s?dns=%s", dohURL, encoded)` and the
`Accept` header set to `application/dns-message`. -/
structure HTTPRequest where
  method : String
  url : String
  accept : String
  deriving DecidableEq, Repr

/-- Request construction of `DNSOverHTTPS` for a packed query. -/
def buildDoHRequest (dohURL : String) (msgBytes : List Nat) : HTTPRequest :=
  { method := "GET"
  , url := dohURL ++ "?dns=" ++ String.mk (rawURLEncode msgBytes)
  , accept := "application/dns-message" }

/-- An HTTP response as `DNSOverHTTPS` observes it: numeric status code,
status line, and body bytes. -/
structure HTTPResponse where
  statusCode : Nat
  status : String
  body : List Nat
  deriving DecidableEq, Repr

/-- Response handling of `DNSOverHTTPS` (src/main.go lines 107-116): a
status other than 200 returns the error carrying the status line and the
body bytes read by `ioutil.ReadAll`; otherwise `ioutil.ReadAll` reads the
entire body, which is handed to `respMsg.Unpack` (`ok` branch).  No size
bound is applied to either read. -/
def handleDoHResponse (resp : HTTPResponse) : Except DNSError (List Nat) :=
  if resp.statusCode ≠ 200 then
    Except.error (DNSError.ServerError resp.status resp.body)
  else
    Except.ok resp.body

/-- The transport selected by `main`'s switch, with its endpoint and the
query type (`dns.TypeA` is 1). -/
inductive TransportChoice where
  | stream (serverHost : String) (qtype : Nat)
  | web (dohURL : String) (qtype : Nat)
  deriving DecidableEq, Repr

/-- The method dispatch in `main` (src/main.go lines 143-152): case
`"tcp"` calls `DNSOverTCP(domain, "8.8.8.8", dns.TypeA)`, case `"http"`
calls `DNSOverHTTPS(domain, "https://cloudflare-dns.com/dns-query",
dns.TypeA)`, and the default branch is `log.Fatalf` (fatal, never
retried), modelled as `ConfigurationError`. -/
def dispatch (method : String) : Except DNSError TransportChoice :=
  if method = "tcp" then Except.ok (TransportChoice.stream "8.8.8.8" 1)
  else if method = "http" then
    Except.ok (TransportChoice.web "https://cloudflare-dns.com/dns-query" 1)
  else Except.error DNSError.ConfigurationError

/-- The blocking operations of the two transports (spec section 5). -/
inductive BlockingOp where
  | dial
  | connWrite
  | connReadLen
  | connReadBody
  | httpRoundTrip
  deriving DecidableEq, Repr

/-- The timeout the source configures for each blocking operation.
`net.Dial` (src/main.go line 23) has no timeout variant and no
`net.Dialer` with a `Timeout` field is used; no
`SetDeadline` / `SetReadDeadline` / `SetWriteDeadline` call appears
anywhere, so the write (line 43) and the two reads (lines 50, 58) carry
no deadline; `&http.Client{}` (line 100) leaves `Timeout` at its zero
value, which in `net/http` means no timeout for the round trip
(line 101).  Hence no operation has a configured bound. -/
def configuredTimeout : BlockingOp → Option Nat := fun _ => none

/-! ## Helper lemmas about the base64url alphabet -/

/-- Decoding inverts encoding on every 6-bit value. -/
theorem b64Value_b64Index : ∀ v < 64, b64Value (b64Index v) = v := by decide

/-- No 6-bit value is encoded as the padding character. -/
theorem b64Index_ne_pad : ∀ v < 64, b64Index v ≠ '=' := by decide

/-- Unpadded base64url decoding inverts encoding on every byte list. -/
theorem rawURL_roundtrip :
    ∀ (l : List Nat), (∀ b ∈ l, b < 256) → rawURLDecode (rawURLEncode l) = l
  | b0 :: b1 :: b2 :: rest, h => by
    have h0 : b0 < 256 := h b0 (by simp)
    have h1 : b1 < 256 := h b1 (by simp)
    have h2 : b2 < 256 := h b2 (by simp)
    have ih := rawURL_roundtrip rest (fun b hb => h b (by simp [hb]))
    simp only [rawURLEncode, rawURLDecode]
    rw [b64Value_b64Index (b0 / 4) (by omega),
        b64Value_b64Index ((b0 % 4) * 16 + b1 / 16) (by omega),
        b64Value_b64Index ((b1 % 16) * 4 + b2 / 64) (by omega),
        b64Value_b64Index (b2 % 64) (by omega), ih]
    simp only [List.cons.injEq]
    refine ⟨by omega, by omega, by omega, trivial⟩
  | [b0, b1], h => by
    have h0 : b0 < 256 := h b0 (by simp)
    have h1 : b1 < 256 := h b1 (by simp)
    simp only [rawURLEncode, rawURLDecode]
    rw [b64Value_b64Index (b0 / 4) (by omega),
        b64Value_b64Index ((b0 % 4) * 16 + b1 / 16) (by omega),
        b64Value_b64Index ((b1 % 16) * 4) (by omega)]
    simp only [List.cons.injEq]
    refine ⟨by omega, by omega, trivial⟩
  | [b0], h => by
    have h0 : b0 < 256 := h b0 (by simp)
    simp only [rawURLEncode, rawURLDecode]
    rw [b64Value_b64Index (b0 / 4) (by omega),
        b64Value_b64Index ((b0 % 4) * 16) (by omega)]
    simp only [List.cons.injEq]
    refine ⟨by omega, trivial⟩
  | [], _ => rfl

/-- The encoded string never contains the padding character. -/
theorem rawURL_no_pad :
    ∀ (l : List Nat), (∀ b ∈ l, b < 256) → '=' ∉ rawURLEncode l
  | b0 :: b1 :: b2 :: rest, h => by
    have h0 : b0 < 256 := h b0 (by simp)
    have h1 : b1 < 256 := h b1 (by simp)
    have h2 : b2 < 256 := h b2 (by simp)
    have ih := rawURL_no_pad rest (fun b hb => h b (by simp [hb]))
    simp only [rawURLEncode, List.mem_cons, not_or]
    exact ⟨Ne.symm (b64Index_ne_pad _ (by omega)), Ne.symm (b64Index_ne_pad _ (by omega)),
           Ne.symm (b64Index_ne_pad _ (by omega)), Ne.symm (b64Index_ne_pad _ (by omega)), ih⟩
  | [b0, b1], h => by
    have h0 : b0 < 256 := h b0 (by simp)
    have h1 : b1 < 256 := h b1 (by simp)
    simp only [rawURLEncode, List.mem_cons, List.not_mem_nil, not_or]
    exact ⟨Ne.symm (b64Index_ne_pad _ (by omega)), Ne.symm (b64Index_ne_pad _ (by omega)),
           Ne.symm (b64Index_ne_pad _ (by omega)), not_false⟩
  | [b0], h => by
    have h0 : b0 < 256 := h b0 (by simp)
    simp only [rawURLEncode, List.mem_cons, List.not_mem_nil, not_or]
    exact ⟨Ne.symm (b64Index_ne_pad _ (by omega)), Ne.symm (b64Index_ne_pad _ (by omega)),
           not_false⟩
  | [], _ => List.not_mem_nil '='

/-! ## Claim theorems -/

/-- C1: the claim says the body read loops until exactly `length` bytes
are accumulated (or fails with a truncated-response error).  The code
performs a single `conn.Read` (src/main.go line 58) and ignores the byte
count: when the peer delivers the 5-byte body as a 1-byte chunk followed
by a 4-byte chunk, the buffer handed to `resp.Unpack` is the padded
partial buffer `[97,0,0,0,0]`, not the full body `[97,98,99,100,101]`,
and no error is raised. -/
theorem c1_single_read_hands_padded_buffer_to_decoder :
    (dnsOverTCP "8.8.8.8" true (some [1]) true [[0, 5], [97], [98, 99, 100, 101]]).2
      = Except.ok [97, 0, 0, 0, 0]
    ∧ ([97, 0, 0, 0, 0] : List Nat) ≠ [97, 98, 99, 100, 101] := by
  exact ⟨rfl, by decide⟩

/-- C2 counterexample: the method name `"doh"` does not select the
WebTransport; it falls into the default branch and is fatal
(src/main.go lines 143-152 switch on `"tcp"` and `"http"`). -/
theorem c2_counterexample_doh_not_dispatched :
    dispatch "doh" = Except.error DNSError.ConfigurationError := by
  rfl

/-- C2 (amended): `"tcp"` maps to the stream transport with default host
`8.8.8.8`, `"http"` (not `"doh"`) maps to the web transport with the
default DoH URL, and every other method name is a fatal configuration
error. -/
theorem c2_dispatch_mapping :
    dispatch "tcp" = Except.ok (TransportChoice.stream "8.8.8.8" 1)
    ∧ dispatch "http" = Except.ok (TransportChoice.web "https://cloudflare-dns.com/dns-query" 1)
    ∧ ∀ method : String, method ≠ "tcp" → method ≠ "http" →
        dispatch method = Except.error DNSError.ConfigurationError := by
  refine ⟨rfl, rfl, ?_⟩
  intro method h1 h2
  unfold dispatch
  rw [if_neg h1, if_neg h2]

/-- C2 witness: the unknown method `"udp"` is a configuration error. -/
theorem c2_dispatch_witness :
    dispatch "udp" = Except.error DNSError.ConfigurationError :=
  c2_dispatch_mapping.2.2 "udp" (by decide) (by decide)

/-- C3: the claim says every blocking operation carries a bounded
timeout.  The source configures none: `net.Dial` has no timeout, no
deadline is ever set on the connection, and `&http.Client{}` leaves its
`Timeout` field zero (no timeout). -/
theorem c3_no_blocking_op_has_timeout :
    ∀ op : BlockingOp, configuredTimeout op = none :=
  fun _ => rfl

/-- C4: the claim says the 2-byte length read is guarded like the body
read.  The code performs a single `conn.Read` into the 2-byte buffer
(src/main.go line 50) and ignores the count: when the peer delivers the
length `0x0005` one byte at a time, the buffer is `[0,0]` (second byte
never read), the length is computed as 0, and the decoder is handed the
empty buffer instead of the 5-byte body — with no error. -/
theorem c4_split_length_bytes_misread :
    (dnsOverTCP "8.8.8.8" true (some [1]) true [[0], [5], [1, 2, 3, 4, 5]]).2
      = Except.ok []
    ∧ (Except.ok ([] : List Nat) : Except DNSError (List Nat))
        ≠ Except.error DNSError.ReadError := by
  exact ⟨rfl, fun contra => Except.noConfusion contra⟩

/-- C5: the claim says the DoH success-path body read is bounded by a
maximum size cap (e.g. 64 KiB).  The code calls `ioutil.ReadAll`
(src/main.go line 113) with no bound: a 65537-byte body (larger than
64 KiB) is fully buffered and handed to the decoder. -/
theorem c5_oversized_body_fully_buffered_and_decoded :
    handleDoHResponse { statusCode := 200, status := "200 OK", body := List.replicate 65537 7 }
      = Except.ok (List.replicate 65537 7)
    ∧ 65536 < (List.replicate 65537 (7 : Nat)).length := by
  refine ⟨rfl, ?_⟩
  rw [List.length_replicate]
  omega

/-- C6: every non-200 response yields the server error carrying the
status line and the literal body, and the body is never handed to the
decoder (src/main.go lines 107-110). -/
theorem c6_non_ok_status_is_server_error (resp : HTTPResponse)
    (h : resp.statusCode ≠ 200) :
    handleDoHResponse resp = Except.error (DNSError.ServerError resp.status resp.body)
    ∧ ∀ bytes, handleDoHResponse resp ≠ Except.ok bytes := by
  have e : handleDoHResponse resp
      = Except.error (DNSError.ServerError resp.status resp.body) := by
    unfold handleDoHResponse
    rw [if_pos h]
  refine ⟨e, fun bytes contra => ?_⟩
  rw [e] at contra
  exact Except.noConfusion contra

/-- C6 witness: a 500 response with body bytes `[110, 111]`. -/
theorem c6_server_error_witness :
    handleDoHResponse { statusCode := 500, status := "500 Internal Server Error", body := [110, 111] }
      = Except.error (DNSError.ServerError "500 Internal Server Error" [110, 111])
    ∧ ∀ bytes, handleDoHResponse { statusCode := 500, status := "500 Internal Server Error", body := [110, 111] }
        ≠ Except.ok bytes :=
  c6_non_ok_status_is_server_error
    { statusCode := 500, status := "500 Internal Server Error", body := [110, 111] } (by decide)

/-- C7: the request is a GET on `dohURL ++ "?dns=" ++ encoded` with the
`Accept: application/dns-message` header, where the encoding is
base64url without padding: the encoded string contains no `=` and
decodes back to exactly the packed bytes. -/
theorem c7_doh_request_encoding (dohURL : String) (msgBytes : List Nat)
    (h : ∀ b ∈ msgBytes, b < 256) :
    buildDoHRequest dohURL msgBytes
      = { method := "GET"
        , url := dohURL ++ "?dns=" ++ String.mk (rawURLEncode msgBytes)
        , accept := "application/dns-message" }
    ∧ '=' ∉ rawURLEncode msgBytes
    ∧ rawURLDecode (rawURLEncode msgBytes) = msgBytes :=
  ⟨rfl, rawURL_no_pad msgBytes h, rawURL_roundtrip msgBytes h⟩

/-- C7 witness: the packed bytes `[0, 1, 2, 255]` against the default
DoH endpoint. -/
theorem c7_doh_request_witness :
    buildDoHRequest "https://cloudflare-dns.com/dns-query" [0, 1, 2, 255]
      = { method := "GET"
        , url := "https://cloudflare-dns.com/dns-query" ++ "?dns="
            ++ String.mk (rawURLEncode [0, 1, 2, 255])
        , accept := "application/dns-message" }
    ∧ '=' ∉ rawURLEncode [0, 1, 2, 255]
    ∧ rawURLDecode (rawURLEncode [0, 1, 2, 255]) = [0, 1, 2, 255] :=
  c7_doh_request_encoding "https://cloudflare-dns.com/dns-query" [0, 1, 2, 255] (by decide)

/-- C8: when the encoded query fits in 16 bits, the bytes written to the
connection are exactly the 2-byte big-endian length followed by the
message bytes unmodified, issued as one write (src/main.go lines 36-43),
and a failed write is a write error. -/
theorem c8_frame_is_bigendian_length_then_message (dnsServer : String)
    (msgBytes : List Nat) (writeOk : Bool) (chunks : List (List Nat))
    (h : msgBytes.length ≤ 65535) :
    frameTCPQuery msgBytes = msgBytes.length / 256 :: msgBytes.length % 256 :: msgBytes
    ∧ (msgBytes.length / 256) * 256 + msgBytes.length % 256 = msgBytes.length
    ∧ msgBytes.length / 256 < 256
    ∧ TCPEvent.write (frameTCPQuery msgBytes)
        ∈ (dnsOverTCP dnsServer true (some msgBytes) writeOk chunks).1
    ∧ (writeOk = false →
        (dnsOverTCP dnsServer true (some msgBytes) writeOk chunks).2
          = Except.error DNSError.WriteError) := by
  have hm : msgBytes.length % 65536 = msgBytes.length := Nat.mod_eq_of_lt (by omega)
  refine ⟨?_, by omega, by omega, ?_, ?_⟩
  · unfold frameTCPQuery
    rw [hm]
  · simp [dnsOverTCP]
  · intro hw
    subst hw
    simp [dnsOverTCP]

/-- C8 witness: the 2-byte message `[0, 77]` with a failing write. -/
theorem c8_frame_witness :
    frameTCPQuery [0, 77] = [0, 77].length / 256 :: [0, 77].length % 256 :: [0, 77]
    ∧ ([0, 77].length / 256) * 256 + [0, 77].length % 256 = [0, 77].length
    ∧ [0, 77].length / 256 < 256
    ∧ TCPEvent.write (frameTCPQuery [0, 77])
        ∈ (dnsOverTCP "8.8.8.8" true (some [0, 77]) false []).1
    ∧ (false = false →
        (dnsOverTCP "8.8.8.8" true (some [0, 77]) false []).2
          = Except.error DNSError.WriteError) :=
  c8_frame_is_bigendian_length_then_message "8.8.8.8" [0, 77] false [] (by decide)

/-- C9 counterexample: the claim says an encoding failure returns before
any connection is opened.  In the code `net.Dial` (src/main.go line 23)
precedes `m.Pack()` (line 30): a run whose pack fails still carries the
dial event in its trace. -/
theorem c9_counterexample_dial_precedes_encode :
    (dnsOverTCP "8.8.8.8" true none true []).2 = Except.error DNSError.EncodeError
    ∧ TCPEvent.dial "8.8.8.8:53" ∈ (dnsOverTCP "8.8.8.8" true none true []).1 := by
  refine ⟨rfl, ?_⟩
  simp [dnsOverTCP]

/-- C9 (amended): the connection is opened before the query is encoded;
when encoding fails, the call returns the encode error after the
connection has been opened and closed again (deferred close), with no
write and no read performed. -/
theorem c9_encode_failure_after_dial (dnsServer : String) (writeOk : Bool)
    (chunks : List (List Nat)) :
    dnsOverTCP dnsServer true none writeOk chunks
      = ([TCPEvent.dial (dnsServer ++ ":53"), TCPEvent.close],
         Except.error DNSError.EncodeError) := by
  rfl

/-- C10: when the encoded query exceeds 65535 bytes the call does not
fail; `uint16(len(msgBytes))` truncates modulo 65536, so the frame
carries a 2-byte big-endian value of `length % 65536` followed by the
full message bytes, and that value disagrees with the body length. -/
theorem c10_oversized_query_truncated_mod_65536 (dnsServer : String)
    (msgBytes : List Nat) (writeOk : Bool) (chunks : List (List Nat))
    (h : 65535 < msgBytes.length) :
    frameTCPQuery msgBytes
      = (msgBytes.length % 65536) / 256 :: (msgBytes.length % 65536) % 256 :: msgBytes
    ∧ ((msgBytes.length % 65536) / 256) * 256 + (msgBytes.length % 65536) % 256
        ≠ msgBytes.length
    ∧ TCPEvent.write (frameTCPQuery msgBytes)
        ∈ (dnsOverTCP dnsServer true (some msgBytes) writeOk chunks).1 := by
  refine ⟨rfl, by omega, ?_⟩
  simp [dnsOverTCP]

/-- C10 witness: a 70000-byte message is framed with the truncated
length 4464 = 70000 % 65536 and still written in full. -/
theorem c10_oversized_witness :
    frameTCPQuery (List.replicate 70000 0)
      = ((List.replicate 70000 (0 : Nat)).length % 65536) / 256
          :: ((List.replicate 70000 (0 : Nat)).length % 65536) % 256
          :: List.replicate 70000 0
    ∧ (((List.replicate 70000 (0 : Nat)).length % 65536) / 256) * 256
        + ((List.replicate 70000 (0 : Nat)).length % 65536) % 256
        ≠ (List.replicate 70000 (0 : Nat)).length
    ∧ TCPEvent.write (frameTCPQuery (List.replicate 70000 0))
        ∈ (dnsOverTCP "8.8.8.8" true (some (List.replicate 70000 0)) true []).1 :=
  c10_oversized_query_truncated_mod_65536 "8.8.8.8" (List.replicate 70000 0) true []
    (by rw [List.length_replicate]; omega)
